import Mathlib

/-!
Shallow embedding of the agent orchestration and self-validation engine of the
ai-job-research repository: the workflow state (`app/agent.py`), the tool
dispatch loop (`agent_execute_tools`, `app/agent_tools.py`), the reflection and
validation scoring engine (`app/agent_reflection.py`), and the event-bus
history (`app/agent_events.py`).

Python dictionaries that the code inspects only through a fixed set of keys are
embedded as structures with one `Option` field per inspected key plus an
`extraKeys` count standing for all other keys, so that Python truthiness
(`if d:` — the dict is non-empty) and key membership (`"k" in d`) are both
expressible.  Python floats are embedded as rationals; all the scores in the
source are built from decimal literals and small divisions, so the comparison
logic is faithfully captured.
-/

/-- A single entry of the `resources` list inside a RAG result.  The code
distinguishes dict entries (read through `.get("topic", "")` and
`.get("type", "")`), plain strings, and anything else. -/
inductive RItem
  | dict (topic : Option String) (rtype : Option String)
  | str (s : String)
  | other
deriving DecidableEq, Repr

/-- The value stored under the `resources` key: the code guards every list
operation with `isinstance(resources, list)`. -/
inductive RVal
  | list (items : List RItem)
  | nonList
deriving DecidableEq, Repr

/-- RAG result dict (`rag_results` slot): the reflection code reads only the
`resources` key.  `extraKeys` counts the remaining keys (for example
`rag_response`, `evaluation`). -/
structure RagDict where
  resources : Option RVal
  extraKeys : Nat
deriving DecidableEq, Repr

/-- Python truthiness of the dict: non-empty. -/
def RagDict.truthy (d : RagDict) : Bool :=
  d.resources.isSome || d.extraKeys != 0

/-- The empty mapping `{}` stored by a failed RAG tool call. -/
def emptyRagDict : RagDict := ⟨none, 0⟩

/-- Gap-analysis result dict (`gap_analysis_results` slot): the code reads
`identified_gaps`, `prerequisites` and tests membership of `time_estimates`. -/
structure GapDict where
  identified_gaps : Option (List String)
  prerequisites : Option (List String)
  time_estimates : Bool
  extraKeys : Nat
deriving DecidableEq, Repr

def GapDict.truthy (d : GapDict) : Bool :=
  d.identified_gaps.isSome || d.prerequisites.isSome || d.time_estimates || d.extraKeys != 0

/-- The empty mapping `{}` stored by a failed gap-analyzer tool call. -/
def emptyGapDict : GapDict := ⟨none, none, false, 0⟩

/-- The `proven_skills` sub-dict of a GitHub analysis result. -/
structure ProvenSkills where
  programming_languages : Option (List String)
  frameworks_and_tools : Option (List String)
deriving DecidableEq, Repr

/-- GitHub analysis result dict (`github_analysis_results` slot). -/
structure GithubDict where
  proven_skills : Option ProvenSkills
  project_types : Option (List String)
  extraKeys : Nat
deriving DecidableEq, Repr

def GithubDict.truthy (d : GithubDict) : Bool :=
  d.proven_skills.isSome || d.project_types.isSome || d.extraKeys != 0

/-- A dict whose contents the core never reads — only presence (`is not None`)
and truthiness (non-emptiness) matter.  Used for the skill-validator,
market-research and learning-plan slots. -/
structure KDict where
  keyCount : Nat
deriving DecidableEq, Repr

def KDict.truthy (d : KDict) : Bool := d.keyCount != 0

/-- Risk levels of `ValidationRisk` in `app/agent_reflection.py`. -/
inductive ValidationRisk
  | critical
  | high
  | medium
  | low
  | none
deriving DecidableEq, Repr, BEq

/-- `ValidationIssue` dataclass. -/
structure ValidationIssue where
  risk_level : ValidationRisk
  category : String
  description : String
  recommendation : String
  impact_score : ℚ
deriving DecidableEq, Repr

/-- Truthiness of an optional dict-valued slot (`None` and `{}` are falsy). -/
def ragSlotTruthy : Option RagDict → Bool
  | Option.none => false
  | Option.some d => d.truthy

def gapSlotTruthy : Option GapDict → Bool
  | Option.none => false
  | Option.some d => d.truthy

def ghSlotTruthy : Option GithubDict → Bool
  | Option.none => false
  | Option.some d => d.truthy

def kSlotTruthy : Option KDict → Bool
  | Option.none => false
  | Option.some d => d.truthy

/-- Truthiness of the optional GitHub username (`None` and `""` are falsy). -/
def usernameTruthy : Option String → Bool
  | Option.none => false
  | Option.some s => s != ""

/-- The set of skills named across the three analysis sources, as accumulated
by the loop at the top of `validate_skill_coverage`. -/
def coveredSkills (gap_analysis : Option GapDict) (rag_results : Option RagDict)
    (github_analysis : Option GithubDict) : Finset String :=
  let c1 : Finset String :=
    match gap_analysis with
    | Option.some g =>
      if g.truthy && g.identified_gaps.isSome then (g.identified_gaps.getD []).toFinset else ∅
    | Option.none => ∅
  let c2 : Finset String :=
    match rag_results with
    | Option.some r =>
      if r.truthy && r.resources.isSome then
        match r.resources.getD RVal.nonList with
        | RVal.list items =>
          items.foldl
            (fun acc it =>
              match it with
              | RItem.dict topic _ => insert (topic.getD "") acc
              | RItem.str s => insert s acc
              | RItem.other => acc)
            ∅
        | RVal.nonList => ∅
      else ∅
    | Option.none => ∅
  let c3 : Finset String :=
    match github_analysis with
    | Option.some g =>
      if g.truthy && g.proven_skills.isSome then
        let ps := g.proven_skills.getD ⟨Option.none, Option.none⟩
        (ps.programming_languages.getD []).toFinset ∪ (ps.frameworks_and_tools.getD []).toFinset
      else ∅
    | Option.none => ∅
  c1 ∪ c2 ∪ c3

/-- `validate_skill_coverage` from `app/agent_reflection.py`. -/
def validate_skill_coverage (required_skills : List String) (gap_analysis : Option GapDict)
    (rag_results : Option RagDict) (github_analysis : Option GithubDict) :
    ℚ × List ValidationIssue :=
  let covered_skills := coveredSkills gap_analysis rag_results github_analysis
  let required_set := required_skills.toFinset
  let covered_set := covered_skills ∩ required_set
  let coverage : ℚ :=
    if required_set ≠ ∅ then (covered_set.card : ℚ) / (required_set.card : ℚ) else 1
  let uncovered := required_set \ covered_set
  let issues : List ValidationIssue :=
    if uncovered ≠ ∅ ∧ ((uncovered.card : ℚ) > (required_set.card : ℚ) * (3/10)) then
      [⟨ValidationRisk.high, "skill_coverage",
        "More than 30 percent of required skills are uncovered",
        "Run additional RAG queries or market research for uncovered skills", 7/10⟩]
    else []
  (coverage, issues)

/-- Substring membership `kw in plan_lower` (Python `in` on strings). -/
def hasKeyword (plan_lower : String) (kw : String) : Bool :=
  decide (List.IsInfix kw.toList plan_lower.toList)

/-- `any(k in plan_lower for k in kws)`. -/
def hasAnyKeyword (plan_lower : String) (kws : List String) : Bool :=
  kws.any (hasKeyword plan_lower)

/-- The phase-marker vocabulary of `validate_learning_plan_quality`. -/
def phaseKeywords : List String := ["phase", "week", "month", "short-term", "medium-term"]

/-- The resource vocabulary of `validate_learning_plan_quality`. -/
def resourceKeywords : List String := ["course", "tutorial", "book", "project", "practice"]

/-- The milestone/metric vocabulary of `validate_learning_plan_quality`. -/
def metricKeywords : List String := ["metric", "checkpoint", "milestone", "complete", "achieve"]

/-- `validate_learning_plan_quality` from `app/agent_reflection.py`.  The
`skill_gaps` and `github_analysis` parameters are accepted but unused, as in
the source. -/
def validate_learning_plan_quality (learning_plan : String) (_skill_gaps : List String)
    (_github_analysis : Option GithubDict) : ℚ × List ValidationIssue :=
  let tier : ℚ × List ValidationIssue :=
    if learning_plan.length < 500 then
      (3/10,
        [⟨ValidationRisk.medium, "plan_completeness",
          "Learning plan is quite short (less than 500 characters)",
          "Generate a more detailed learning plan with phases and milestones", 2/5⟩])
    else if learning_plan.length > 2000 then (9/10, [])
    else (7/10, [])
  let plan_lower := learning_plan.toLower
  let has_phases := hasAnyKeyword plan_lower phaseKeywords
  let has_resources := hasAnyKeyword plan_lower resourceKeywords
  let has_metrics := hasAnyKeyword plan_lower metricKeywords
  let afterPhases : ℚ × List ValidationIssue :=
    if !has_phases then
      (tier.1 - 1/10,
        tier.2 ++
          [⟨ValidationRisk.medium, "plan_structure",
            "Learning plan lacks clear phase-based structure",
            "Organize plan into phases (short/medium/long term)", 3/10⟩])
    else tier
  let afterResources : ℚ × List ValidationIssue :=
    if !has_resources then
      (afterPhases.1 - 1/5,
        afterPhases.2 ++
          [⟨ValidationRisk.high, "resource_guidance",
            "Learning plan does not reference specific learning resources",
            "Include specific courses, tutorials, books, or projects", 2/5⟩])
    else afterPhases
  let afterMetrics : ℚ × List ValidationIssue :=
    if !has_metrics then
      (afterResources.1 - 1/10,
        afterResources.2 ++
          [⟨ValidationRisk.medium, "success_criteria",
            "Learning plan lacks clear success metrics or milestones",
            "Add checkpoints and success criteria for each phase", 3/10⟩])
    else afterResources
  (max 0 (min 1 afterMetrics.1), afterMetrics.2)

/-- The deduplicated set of GitHub-proven languages that
`validate_github_integration` extracts from the analysis slot. -/
def githubLangs (github_analysis : Option GithubDict) : Finset String :=
  match github_analysis with
  | Option.some g =>
    ((g.proven_skills.getD ⟨Option.none, Option.none⟩).programming_languages.getD []).toFinset
  | Option.none => ∅

/-- `validate_github_integration` from `app/agent_reflection.py`. -/
def validate_github_integration (github_username : Option String)
    (github_analysis : Option GithubDict) (current_skills : List String) :
    ℚ × List ValidationIssue :=
  if !(usernameTruthy github_username) then (1, [])
  else if !(ghSlotTruthy github_analysis) then
    (3/10,
      [⟨ValidationRisk.high, "github_analysis_missing",
        "GitHub username provided but analysis was not completed",
        "Retry GitHub analysis or check API availability", 3/5⟩])
  else
    let gh_languages := githubLangs github_analysis
    if gh_languages = ∅ then
      (1/2,
        [⟨ValidationRisk.medium, "github_skill_extraction",
          "No programming languages found in GitHub analysis",
          "Verify GitHub profile has repositories with language data", 3/10⟩])
    else
      let integration_score : ℚ :=
        ((gh_languages ∩ current_skills.toFinset).card : ℚ) / (max 1 gh_languages.card : ℚ)
      let issues : List ValidationIssue :=
        if integration_score < 1/2 then
          [⟨ValidationRisk.low, "github_skill_alignment",
            "GitHub-proven skills not well aligned with current skills",
            "This may indicate GitHub profile does not match self-reported skills", 1/5⟩]
        else []
      (min 1 (integration_score + 1/2), issues)

/-- Number of non-`None` result slots, as summed at the top of
`validate_data_sources`. -/
def sourcesAvailable (rag_results : Option RagDict) (skill_validation : Option KDict)
    (market_research : Option KDict) (gap_analysis : Option GapDict) : Nat :=
  (if rag_results.isSome then 1 else 0) + (if skill_validation.isSome then 1 else 0) +
    (if market_research.isSome then 1 else 0) + (if gap_analysis.isSome then 1 else 0)

/-- Length of the `resources` value when it is a list, else 0
(`len(resources) if isinstance(resources, list) else 0`). -/
def resourceCount : RVal → Nat
  | RVal.list items => items.length
  | RVal.nonList => 0

/-- The guard `rag_results and "resources" in rag_results` followed by
`resource_count < 3` in `validate_data_sources`. -/
def ragFewResources (rag_results : Option RagDict) : Bool :=
  match rag_results with
  | Option.some d =>
    d.truthy && d.resources.isSome && decide (resourceCount (d.resources.getD RVal.nonList) < 3)
  | Option.none => false

/-- `validate_data_sources` from `app/agent_reflection.py`. -/
def validate_data_sources (rag_results : Option RagDict) (skill_validation : Option KDict)
    (market_research : Option KDict) (gap_analysis : Option GapDict) :
    ℚ × List ValidationIssue :=
  let n := sourcesAvailable rag_results skill_validation market_research gap_analysis
  let source_quality : ℚ := (n : ℚ) / 4
  let issues1 : List ValidationIssue :=
    if n < 2 then
      [⟨ValidationRisk.critical, "insufficient_data_sources",
        "Only " ++ toString n ++ " out of 4 data sources are available",
        "Ensure analysis includes gap analysis and RAG queries at minimum", 4/5⟩]
    else []
  let afterRag : ℚ × List ValidationIssue :=
    if ragFewResources rag_results then
      (source_quality - 1/10,
        issues1 ++
          [⟨ValidationRisk.medium, "insufficient_resources",
            "RAG query returned fewer than 3 learning resources",
            "Run additional RAG queries or use different search terms", 3/10⟩])
    else (source_quality, issues1)
  (max 0 (min 1 afterRag.1), afterRag.2)

/-- `AnalysisMetrics` TypedDict. -/
structure AnalysisMetrics where
  skill_coverage : ℚ
  learning_resources_coverage : ℚ
  market_data_coverage : ℚ
  github_coverage : ℚ
  gap_analysis_depth : Nat
  resource_diversity : Nat
  project_type_coverage : Nat
  skill_validation_accuracy : ℚ
  prerequisite_coverage : ℚ
  time_estimation_confidence : ℚ
  overall_confidence : ℚ
  data_quality_score : ℚ
  analysis_rigor_score : ℚ
deriving DecidableEq, Repr

/-- `calculate_analysis_metrics` from `app/agent_reflection.py`. -/
def calculate_analysis_metrics (required_skills : List String) (skill_gaps : List String)
    (rag_results : Option RagDict) (skill_validation : Option KDict)
    (market_research : Option KDict) (gap_analysis : Option GapDict)
    (github_analysis : Option GithubDict) : AnalysisMetrics :=
  let skill_coverage : ℚ :=
    if required_skills ≠ [] then (skill_gaps.length : ℚ) / (required_skills.length : ℚ) else 1
  let learning_resources : Nat :=
    match rag_results with
    | Option.some d =>
      if d.truthy && d.resources.isSome then resourceCount (d.resources.getD RVal.nonList) else 0
    | Option.none => 0
  let resources_coverage : ℚ :=
    min 1 ((learning_resources : ℚ) / (max 1 skill_gaps.length : ℚ))
  let market_coverage : ℚ := if kSlotTruthy market_research then 1 else 0
  let github_coverage : ℚ := if ghSlotTruthy github_analysis then 1 else 1/2
  let gap_depth : Nat :=
    match gap_analysis with
    | Option.some g => if g.truthy then (g.identified_gaps.getD []).length else 0
    | Option.none => 0
  let resource_diversity : Nat :=
    match rag_results with
    | Option.some d =>
      if d.truthy && d.resources.isSome then
        match d.resources.getD RVal.nonList with
        | RVal.list items =>
          (items.foldl
            (fun acc it =>
              match it with
              | RItem.dict _ rtype => insert (rtype.getD "") acc
              | _ => insert "" acc)
            (∅ : Finset String)).card
        | RVal.nonList => 0
      else 0
    | Option.none => 0
  let project_types : Nat :=
    match github_analysis with
    | Option.some g => if g.truthy then (g.project_types.getD []).length else 0
    | Option.none => 0
  let validation_accuracy : ℚ := if kSlotTruthy skill_validation then 1 else 0
  let prerequisites : Nat :=
    match gap_analysis with
    | Option.some g => if g.truthy then (g.prerequisites.getD []).length else 0
    | Option.none => 0
  let prerequisite_coverage : ℚ :=
    min 1 ((prerequisites : ℚ) / (max 1 skill_gaps.length : ℚ))
  let time_confidence : ℚ :=
    if gapSlotTruthy gap_analysis &&
        (match gap_analysis with
         | Option.some g => g.time_estimates
         | Option.none => false) then 4/5
    else 3/10
  let data_sources_used : Nat :=
    (if rag_results.isSome then 1 else 0) + (if skill_validation.isSome then 1 else 0) +
      (if market_research.isSome then 1 else 0) + (if gap_analysis.isSome then 1 else 0) +
      (if github_analysis.isSome then 1 else 0)
  let overall_confidence : ℚ := min 1 ((data_sources_used : ℚ) / 4)
  let data_quality : ℚ := min 1 ((learning_resources : ℚ) / 5 + 1/2)
  let analysis_rigor : ℚ := min 1 ((gap_depth : ℚ) / 5 + 1/2)
  { skill_coverage := skill_coverage
    learning_resources_coverage := resources_coverage
    market_data_coverage := market_coverage
    github_coverage := github_coverage
    gap_analysis_depth := gap_depth
    resource_diversity := resource_diversity
    project_type_coverage := project_types
    skill_validation_accuracy := validation_accuracy
    prerequisite_coverage := prerequisite_coverage
    time_estimation_confidence := time_confidence
    overall_confidence := overall_confidence
    data_quality_score := data_quality
    analysis_rigor_score := analysis_rigor }

/-- `AnalysisValidation` dataclass. -/
structure AnalysisValidation where
  is_valid : Bool
  overall_quality_score : ℚ
  overall_confidence : ℚ
  issues : List ValidationIssue
  completeness_score : ℚ
  reliability_score : ℚ
  validation_details : AnalysisMetrics
  recommendations : List String
  requires_revision : Bool
deriving DecidableEq, Repr

/-- The concatenated issue list assembled by `validate_analysis`. -/
def vaAllIssues (required_skills current_skills skill_gaps : List String)
    (learning_plan : String) (github_username : Option String) (rag_results : Option RagDict)
    (skill_validation : Option KDict) (market_research : Option KDict)
    (gap_analysis : Option GapDict) (github_analysis : Option GithubDict) :
    List ValidationIssue :=
  (validate_skill_coverage required_skills gap_analysis rag_results github_analysis).2 ++
    (validate_learning_plan_quality learning_plan skill_gaps github_analysis).2 ++
    (validate_github_integration github_username github_analysis current_skills).2 ++
    (validate_data_sources rag_results skill_validation market_research gap_analysis).2

/-- `completeness_score` as computed in `validate_analysis`. -/
def vaCompleteness (required_skills skill_gaps : List String) (learning_plan : String)
    (rag_results : Option RagDict) (skill_validation : Option KDict)
    (market_research : Option KDict) (gap_analysis : Option GapDict)
    (github_analysis : Option GithubDict) : ℚ :=
  min 1
    (((validate_skill_coverage required_skills gap_analysis rag_results github_analysis).1 +
        (validate_data_sources rag_results skill_validation market_research gap_analysis).1 +
        (validate_learning_plan_quality learning_plan skill_gaps github_analysis).1) / 3)

/-- `reliability_score` as computed in `validate_analysis`. -/
def vaReliability (required_skills current_skills skill_gaps : List String)
    (github_username : Option String) (rag_results : Option RagDict)
    (skill_validation : Option KDict) (market_research : Option KDict)
    (gap_analysis : Option GapDict) (github_analysis : Option GithubDict) : ℚ :=
  let metrics := calculate_analysis_metrics required_skills skill_gaps rag_results
    skill_validation market_research gap_analysis github_analysis
  min 1
    (((validate_github_integration github_username github_analysis current_skills).1 +
        metrics.data_quality_score + metrics.analysis_rigor_score) / 3)

/-- `overall_quality` as computed in `validate_analysis`. -/
def vaOverallQuality (required_skills current_skills skill_gaps : List String)
    (learning_plan : String) (github_username : Option String) (rag_results : Option RagDict)
    (skill_validation : Option KDict) (market_research : Option KDict)
    (gap_analysis : Option GapDict) (github_analysis : Option GithubDict) : ℚ :=
  (vaCompleteness required_skills skill_gaps learning_plan rag_results skill_validation
      market_research gap_analysis github_analysis +
    vaReliability required_skills current_skills skill_gaps github_username rag_results
      skill_validation market_research gap_analysis github_analysis) / 2

/-- The revision decision of `validate_analysis`:
`len(critical) > 0 or (len(high) > 1 and overall_quality < 0.6)`. -/
def vaRequiresRevision (required_skills current_skills skill_gaps : List String)
    (learning_plan : String) (github_username : Option String) (rag_results : Option RagDict)
    (skill_validation : Option KDict) (market_research : Option KDict)
    (gap_analysis : Option GapDict) (github_analysis : Option GithubDict) : Bool :=
  let all_issues := vaAllIssues required_skills current_skills skill_gaps learning_plan
    github_username rag_results skill_validation market_research gap_analysis github_analysis
  let overall_quality := vaOverallQuality required_skills current_skills skill_gaps
    learning_plan github_username rag_results skill_validation market_research gap_analysis
    github_analysis
  decide (0 < (all_issues.filter (fun i => i.risk_level == ValidationRisk.critical)).length) ||
    (decide (1 < (all_issues.filter (fun i => i.risk_level == ValidationRisk.high)).length) &&
      decide (overall_quality < 6/10))

/-- `validate_analysis` from `app/agent_reflection.py`. -/
def validate_analysis (required_skills current_skills skill_gaps : List String)
    (learning_plan : String) (github_username : Option String) (rag_results : Option RagDict)
    (skill_validation : Option KDict) (market_research : Option KDict)
    (gap_analysis : Option GapDict) (github_analysis : Option GithubDict) :
    AnalysisValidation :=
  let plan_quality := (validate_learning_plan_quality learning_plan skill_gaps github_analysis).1
  let skill_coverage :=
    (validate_skill_coverage required_skills gap_analysis rag_results github_analysis).1
  let source_quality :=
    (validate_data_sources rag_results skill_validation market_research gap_analysis).1
  let github_quality :=
    (validate_github_integration github_username github_analysis current_skills).1
  let metrics := calculate_analysis_metrics required_skills skill_gaps rag_results
    skill_validation market_research gap_analysis github_analysis
  let overall_quality := vaOverallQuality required_skills current_skills skill_gaps
    learning_plan github_username rag_results skill_validation market_research gap_analysis
    github_analysis
  let requires_revision := vaRequiresRevision required_skills current_skills skill_gaps
    learning_plan github_username rag_results skill_validation market_research gap_analysis
    github_analysis
  let recs0 : List String :=
    if plan_quality < 6/10 then ["Regenerate learning plan with more detail and structure"]
    else []
  let recs1 := recs0 ++
    (if skill_coverage < 7/10 then ["Perform additional RAG queries for uncovered skills"]
     else [])
  let recs2 := recs1 ++
    (if source_quality < 1/2 then ["Run market research and skill validation tools"] else [])
  let recs3 := recs2 ++
    (if github_quality < 1/2 ∧ usernameTruthy github_username then
      ["Retry GitHub profile analysis"]
     else [])
  let recommendations :=
    if recs3 = [] then ["Analysis looks good - proceed with learning plan"] else recs3
  { is_valid := !requires_revision && decide (overall_quality > 1/2)
    overall_quality_score := overall_quality
    overall_confidence := metrics.overall_confidence
    issues := vaAllIssues required_skills current_skills skill_gaps learning_plan
      github_username rag_results skill_validation market_research gap_analysis github_analysis
    completeness_score := vaCompleteness required_skills skill_gaps learning_plan rag_results
      skill_validation market_research gap_analysis github_analysis
    reliability_score := vaReliability required_skills current_skills skill_gaps
      github_username rag_results skill_validation market_research gap_analysis github_analysis
    validation_details := metrics
    recommendations := recommendations
    requires_revision := requires_revision }

/-- `ToolType` enum from `app/agent_tools.py`. -/
inductive ToolType
  | rag_query
  | skill_validator
  | market_research
  | learning_path_generator
  | gap_analyzer
  | github_analyzer
deriving DecidableEq, Repr

/-- The `.value` string of each enum member. -/
def ToolType.value : ToolType → String
  | ToolType.rag_query => "rag_query"
  | ToolType.skill_validator => "skill_validator"
  | ToolType.market_research => "market_research"
  | ToolType.learning_path_generator => "learning_path_generator"
  | ToolType.gap_analyzer => "gap_analyzer"
  | ToolType.github_analyzer => "github_analyzer"

/-- `ToolResult` TypedDict, with the `data` payload typed per tool.  Every tool
in `app/agent_tools.py` catches its own exceptions and returns
`success=False, data={}` instead of raising, so the envelope always exists. -/
structure ToolResult (α : Type) where
  success : Bool
  data : α
  confidence : ℚ
  error : Option String
deriving DecidableEq

/-- The outcome of `execute_tool` for each tool kind of one pass.  The real
tools call a text-generation service or HTTP APIs, so their results are
nondeterministic inputs to the workflow; the oracle fixes one outcome per tool
kind, exactly what `agent_execute_tools` consumes. -/
structure ToolOracle where
  gap_analyzer : ToolResult GapDict
  rag_query : ToolResult RagDict
  skill_validator : ToolResult KDict
  market_research : ToolResult KDict
  learning_path_generator : ToolResult KDict
  github_analyzer : ToolResult GithubDict
deriving DecidableEq

/-- `AgentState` TypedDict from `app/agent.py` (the run state). -/
structure AgentState where
  job_description : String
  current_skills : List String
  job_title : String
  location : String
  github_username : Option String
  skills_required : List String
  skill_gaps : List String
  rag_results : Option RagDict
  skill_validation_results : Option KDict
  market_research_results : Option KDict
  gap_analysis_results : Option GapDict
  learning_plan_results : Option KDict
  github_analysis_results : Option GithubDict
  analysis_quality_score : ℚ
  analysis_confidence_score : ℚ
  tool_call_count : Nat
  max_tool_calls : Nat
  executed_tools : List String
  agent_reasoning : List String
  reflection_iterations : Nat
  learning_plan : String
deriving DecidableEq

/-- The GitHub-skill-union merge in `agent_execute_tools`:
`enriched = set(current); enriched.update(github_skills); list(enriched)`.
Python materialises the set in an unspecified order; the embedding picks the
canonical first-occurrence order, which agrees with the source on the
resulting set and on freedom from duplicates. -/
def mergeGithubSkills (current_skills github_skills : List String) : List String :=
  (current_skills ++ github_skills).dedup

/-- One iteration of the tool loop body in `agent_execute_tools`: run the tool
through `execute_tool`, store `result["data"]` in the matching slot
(unconditionally, also on failure), apply the GitHub skill union on success,
and append the tool name to `executed_tools`. -/
def processTool (o : ToolOracle) (t : ToolType) (s : AgentState) : AgentState :=
  let s1 : AgentState :=
    match t with
    | ToolType.gap_analyzer =>
      { s with
        gap_analysis_results := some o.gap_analyzer.data
        skill_gaps := o.gap_analyzer.data.identified_gaps.getD s.skill_gaps }
    | ToolType.rag_query => { s with rag_results := some o.rag_query.data }
    | ToolType.skill_validator =>
      { s with skill_validation_results := some o.skill_validator.data }
    | ToolType.market_research =>
      { s with market_research_results := some o.market_research.data }
    | ToolType.learning_path_generator =>
      { s with learning_plan_results := some o.learning_path_generator.data }
    | ToolType.github_analyzer =>
      let d := o.github_analyzer.data
      let s2 := { s with github_analysis_results := some d }
      if o.github_analyzer.success && d.proven_skills.isSome then
        { s2 with
          current_skills :=
            mergeGithubSkills s2.current_skills
              ((d.proven_skills.getD ⟨Option.none, Option.none⟩).programming_languages.getD []) }
      else s2
  { s1 with executed_tools := s1.executed_tools ++ [t.value] }

/-- The fixed tool list of `agent_execute_tools`, with the GitHub analyzer
inserted at the front when a (truthy) username is present. -/
def toolsToExecute (s : AgentState) : List ToolType :=
  let base := [ToolType.gap_analyzer, ToolType.rag_query, ToolType.skill_validator]
  if usernameTruthy s.github_username then ToolType.github_analyzer :: base else base

/-- The `for tool_type in tools_to_execute` loop with its
`if tool_call_count >= max_tool_calls: break` guard checked before each call. -/
def runToolLoop (o : ToolOracle) : List ToolType → AgentState → AgentState
  | [], s => s
  | t :: ts, s =>
    if s.tool_call_count ≥ s.max_tool_calls then s
    else runToolLoop o ts (processTool o t s)

/-- `agent_execute_tools` from `app/agent.py`: increment the call counter once,
then run the tool loop, then append the summary line to `agent_reasoning`. -/
def agent_execute_tools (o : ToolOracle) (s : AgentState) : AgentState :=
  let tools := toolsToExecute s
  let s1 := { s with tool_call_count := s.tool_call_count + 1 }
  let s2 := runToolLoop o tools s1
  { s2 with
    agent_reasoning :=
      s2.agent_reasoning ++ ["Executed " ++ toString tools.length ++ " tools"] }

/-- `router` from `app/agent.py` — the conditional edge after `reflect`. -/
def router (s : AgentState) : String :=
  if s.tool_call_count ≥ s.max_tool_calls then "generate_plan"
  else if gapSlotTruthy s.gap_analysis_results && ragSlotTruthy s.rag_results then
    "generate_plan"
  else "execute_tools"

/-- `EventType` enum from `app/agent_events.py`. -/
inductive EventType
  | agent_start
  | agent_end
  | node_start
  | node_end
  | node_error
  | tool_start
  | tool_end
  | tool_error
  | thinking
  | reasoning
  | state_update
  | validation_result
  | analysis_complete
deriving DecidableEq, Repr

/-- `AgentEvent` dataclass. -/
structure AgentEvent where
  type : EventType
  timestamp : String
  node_name : Option String
  tool_name : Option String
  status : Option String
  data : Option KDict
  error : Option String
  progress : Option ℚ
deriving DecidableEq

/-- `self.max_history_size = 1000` in `AgentEventEmitter.__init__`. -/
def maxHistorySize : Nat := 1000

/-- The history update of `AgentEventEmitter.emit`: append, then pop the front
element when the history exceeds `max_history_size`. -/
def emitterEmit (history : List AgentEvent) (e : AgentEvent) : List AgentEvent :=
  let h := history ++ [e]
  if h.length > maxHistorySize then h.drop 1 else h

/-- Emitting a sequence of events one at a time, in arrival order. -/
def emitAll (history : List AgentEvent) (events : List AgentEvent) : List AgentEvent :=
  events.foldl emitterEmit history

/-- An oracle in which every tool call failed: each tool in
`app/agent_tools.py` converts its exception into
`success=False, data={}, confidence=0.0`. -/
def failOracle : ToolOracle :=
  ⟨⟨false, emptyGapDict, 0, some "error"⟩, ⟨false, emptyRagDict, 0, some "error"⟩,
   ⟨false, ⟨0⟩, 0, some "error"⟩, ⟨false, ⟨0⟩, 0, some "error"⟩,
   ⟨false, ⟨0⟩, 0, some "error"⟩, ⟨false, ⟨Option.none, Option.none, 0⟩, 0, some "error"⟩⟩

/-- A freshly constructed run state: derived and result fields null/zero/empty,
`max_tool_calls` at its default of 5. -/
def initAgentState : AgentState :=
  ⟨"", [], "", "Remote", Option.none, [], [], Option.none, Option.none, Option.none,
   Option.none, Option.none, Option.none, 0, 0, 0, 5, [], [], 0, ""⟩

/-- Run state with both the gap-analysis and RAG slots holding the empty
mapping `{}` (non-null but falsy) and budget remaining. -/
def routerCexState : AgentState :=
  { initAgentState with
    tool_call_count := 1
    max_tool_calls := 5
    gap_analysis_results := some emptyGapDict
    rag_results := some emptyRagDict }

/-- Run state with a zero call budget. -/
def c1CexState : AgentState := { initAgentState with max_tool_calls := 0 }

/-- Run state entering `execute_tools` with one call of budget left. -/
def c1WitnessState : AgentState :=
  { initAgentState with tool_call_count := 4, max_tool_calls := 5 }

/-- A concrete event carrying its sequence number as timestamp. -/
def natEvent (n : Nat) : AgentEvent :=
  ⟨EventType.node_start, toString n, Option.none, Option.none, Option.none, Option.none,
   Option.none, Option.none⟩

theorem processTool_tool_call_count (o : ToolOracle) (t : ToolType) (s : AgentState) :
    (processTool o t s).tool_call_count = s.tool_call_count := by
  cases t
  case github_analyzer => simp only [processTool]; split <;> rfl
  all_goals rfl

theorem processTool_max_tool_calls (o : ToolOracle) (t : ToolType) (s : AgentState) :
    (processTool o t s).max_tool_calls = s.max_tool_calls := by
  cases t
  case github_analyzer => simp only [processTool]; split <;> rfl
  all_goals rfl

theorem runToolLoop_tool_call_count (o : ToolOracle) (ts : List ToolType) (s : AgentState) :
    (runToolLoop o ts s).tool_call_count = s.tool_call_count := by
  induction ts generalizing s with
  | nil => rfl
  | cons t ts ih =>
    unfold runToolLoop
    split
    · rfl
    · rw [ih, processTool_tool_call_count]

theorem runToolLoop_stopped (o : ToolOracle) (ts : List ToolType) (s : AgentState)
    (h : s.max_tool_calls ≤ s.tool_call_count) : runToolLoop o ts s = s := by
  cases ts with
  | nil => rfl
  | cons t ts => unfold runToolLoop; simp [h]

theorem runToolLoop_runs_all (o : ToolOracle) (ts : List ToolType) (s : AgentState)
    (h : s.tool_call_count < s.max_tool_calls) :
    runToolLoop o ts s = ts.foldl (fun st t => processTool o t st) s := by
  induction ts generalizing s with
  | nil => rfl
  | cons t ts ih =>
    unfold runToolLoop
    rw [if_neg (by omega)]
    simp only [List.foldl_cons]
    exact ih _ (by rw [processTool_tool_call_count, processTool_max_tool_calls]; exact h)

/-- C1 counterexample: with a call budget of zero, a single `execute_tools`
pass still increments `tool_call_count` to 1, so the claimed invariant
`tool_call_count ≤ max_tool_calls` fails after the pass even though no tool
was started. -/
theorem c1_budget_counterexample :
    c1CexState.tool_call_count = 0 ∧ c1CexState.max_tool_calls = 0 ∧
    (agent_execute_tools failOracle c1CexState).executed_tools = [] ∧
    ¬((agent_execute_tools failOracle c1CexState).tool_call_count ≤
        c1CexState.max_tool_calls) := by
  refine ⟨rfl, rfl, rfl, ?_⟩
  decide

/-- C1 (amended): inside `agent_execute_tools` the budget check happens before
each individual tool call, so no tool starts once
`tool_call_count ≥ max_tool_calls` and control returns without raising; every
pass increments `tool_call_count` by exactly one, hence
`tool_call_count ≤ max_tool_calls` holds after every pass that was entered
with `tool_call_count < max_tool_calls` (in particular for any
`max_tool_calls ≥ 1` from a fresh state), but not for `max_tool_calls = 0`. -/
theorem c1_budget_amended (o : ToolOracle) (s : AgentState) :
    (agent_execute_tools o s).tool_call_count = s.tool_call_count + 1 ∧
    (s.max_tool_calls ≤ s.tool_call_count + 1 →
      (agent_execute_tools o s).executed_tools = s.executed_tools) ∧
    (s.tool_call_count < s.max_tool_calls →
      (agent_execute_tools o s).tool_call_count ≤ s.max_tool_calls) := by
  refine ⟨?_, ?_, ?_⟩
  · show (runToolLoop o _ _).tool_call_count = _
    rw [runToolLoop_tool_call_count]
  · intro h
    show (runToolLoop o _ { s with tool_call_count := s.tool_call_count + 1 }).executed_tools = _
    rw [runToolLoop_stopped o _ _ (by simpa using h)]
  · intro h
    show (runToolLoop o _ _).tool_call_count ≤ _
    rw [runToolLoop_tool_call_count]
    simpa using h

/-- Witness for `c1_budget_amended` at a state with one call of budget left
(`tool_call_count = 4`, `max_tool_calls = 5`), where both hypotheses hold. -/
theorem c1_budget_amended_witness :
    (agent_execute_tools failOracle c1WitnessState).tool_call_count =
        c1WitnessState.tool_call_count + 1 ∧
    (agent_execute_tools failOracle c1WitnessState).executed_tools =
        c1WitnessState.executed_tools ∧
    (agent_execute_tools failOracle c1WitnessState).tool_call_count ≤
        c1WitnessState.max_tool_calls :=
  ⟨(c1_budget_amended failOracle c1WitnessState).1,
   (c1_budget_amended failOracle c1WitnessState).2.1 (by decide),
   (c1_budget_amended failOracle c1WitnessState).2.2 (by decide)⟩

/-- C2 counterexample: a run state whose gap-analysis and RAG slots are both
non-null (they hold the empty mapping) and whose budget is not exhausted, on
which `router` returns `"execute_tools"`, not `"generate_plan"` as the claim
states for any non-null slots regardless of contents. -/
theorem c2_router_counterexample :
    routerCexState.tool_call_count < routerCexState.max_tool_calls ∧
    routerCexState.gap_analysis_results.isSome = true ∧
    routerCexState.rag_results.isSome = true ∧
    router routerCexState = "execute_tools" := by
  refine ⟨by decide, rfl, rfl, rfl⟩

/-- C2 (amended): `router` is a pure function of the run state returning only
`"generate_plan"` or `"execute_tools"`; it returns `"execute_tools"` exactly
when the budget is not exhausted and at least one of the gap-analysis and RAG
slots is not truthy (null or an empty mapping), and `"generate_plan"`
otherwise — i.e. the slot test is Python truthiness, not mere non-nullness. -/
theorem c2_router_amended (s : AgentState) :
    (router s = "generate_plan" ∨ router s = "execute_tools") ∧
    (router s = "execute_tools" ↔
      s.tool_call_count < s.max_tool_calls ∧
        ¬(gapSlotTruthy s.gap_analysis_results = true ∧
            ragSlotTruthy s.rag_results = true)) := by
  unfold router
  split_ifs with h1 h2
  · exact ⟨Or.inl rfl, by
      constructor
      · intro hcontra
        exact absurd hcontra (by decide)
      · intro ⟨hlt, _⟩
        omega⟩
  · refine ⟨Or.inl rfl, ?_⟩
    rw [Bool.and_eq_true] at h2
    constructor
    · intro hcontra
      exact absurd hcontra (by decide)
    · intro ⟨_, hnot⟩
      exact absurd ⟨h2.1, h2.2⟩ hnot
  · refine ⟨Or.inr rfl, ?_⟩
    rw [Bool.and_eq_true] at h2
    constructor
    · intro _
      exact ⟨by omega, h2⟩
    · intro _
      rfl

/-- C9: the GitHub-skill-union merge of `agent_execute_tools` has set
semantics — merging the same proven-language list twice yields the same set of
skills as merging it once, and the merged list never contains duplicates. -/
theorem c9_github_merge_idempotent (current_skills github_skills : List String) :
    (mergeGithubSkills (mergeGithubSkills current_skills github_skills)
        github_skills).toFinset =
      (mergeGithubSkills current_skills github_skills).toFinset ∧
    (mergeGithubSkills (mergeGithubSkills current_skills github_skills)
        github_skills).Nodup ∧
    (mergeGithubSkills current_skills github_skills).Nodup := by
  refine ⟨?_, List.nodup_dedup _, List.nodup_dedup _⟩
  ext a
  simp [mergeGithubSkills, List.mem_dedup, or_assoc]

theorem emitterEmit_length_le (h : List AgentEvent) (e : AgentEvent)
    (hh : h.length ≤ maxHistorySize) : (emitterEmit h e).length ≤ maxHistorySize := by
  simp only [emitterEmit]
  split <;> rename_i hc <;>
    simp only [List.length_drop, List.length_append, List.length_cons, List.length_nil] at * <;>
    omega

theorem emitAll_drop (events : List AgentEvent) :
    ∀ h : List AgentEvent, h.length ≤ maxHistorySize →
      emitAll h events = (h ++ events).drop ((h ++ events).length - maxHistorySize) := by
  induction events with
  | nil =>
    intro h hh
    have h0 : h.length - maxHistorySize = 0 := by omega
    simp only [emitAll, List.foldl_nil, List.append_nil, h0, List.drop_zero]
  | cons e es ih =>
    intro h hh
    have hstep : emitAll h (e :: es) = emitAll (emitterEmit h e) es := rfl
    rw [hstep, ih _ (emitterEmit_length_le h e hh)]
    by_cases hc : (h ++ [e]).length > maxHistorySize
    · have h1 : emitterEmit h e = (h ++ [e]).drop 1 := by
        simp only [emitterEmit, if_pos hc]
      have h2 : ((h ++ [e]) ++ es).drop 1 = (h ++ [e]).drop 1 ++ es := by
        rw [List.drop_append_eq_append_drop]
        have h3 : 1 - (h ++ [e]).length = 0 := by
          simp only [List.length_append, List.length_cons, List.length_nil]
          omega
        rw [h3, List.drop_zero]
      have h4 : (h ++ [e]) ++ es = h ++ e :: es := by
        rw [List.append_assoc, List.singleton_append]
      rw [h1, ← h2, List.drop_drop, h4]
      have hidx : 1 + (((h ++ e :: es).drop 1).length - maxHistorySize) =
          (h ++ e :: es).length - maxHistorySize := by
        simp only [List.length_drop, List.length_append, List.length_cons,
          List.length_nil] at *
        omega
      rw [hidx]
    · have h1 : emitterEmit h e = h ++ [e] := by
        simp only [emitterEmit, if_neg hc]
      rw [h1, List.append_assoc, List.singleton_append]

/-- C8: emitting any sequence of events through `AgentEventEmitter.emit` with
`max_history_size = 1000` leaves exactly the last 1000 events (the suffix of
the arrival sequence — FIFO order preserved, oldest evicted first), so the
history never exceeds 1000; in particular, after 1001 events exactly 1000
remain and event number 1 has been evicted. -/
theorem c8_event_history_fifo (events : List AgentEvent) :
    emitAll [] events = events.drop (events.length - maxHistorySize) ∧
    (emitAll [] events).length ≤ maxHistorySize ∧
    emitAll [] ((List.range 1001).map natEvent) =
      ((List.range 1001).map natEvent).drop 1 := by
  have hgen := emitAll_drop events [] (by simp)
  have h1001 := emitAll_drop ((List.range 1001).map natEvent) [] (by simp)
  simp only [List.nil_append] at hgen h1001
  refine ⟨hgen, ?_, ?_⟩
  · rw [hgen, List.length_drop]
    have hm : maxHistorySize = 1000 := rfl
    omega
  · rw [h1001]
    have hidx : ((List.range 1001).map natEvent).length - maxHistorySize = 1 := by
      rw [List.length_map, List.length_range]
      rfl
    rw [hidx]

theorem runToolLoop_max_tool_calls (o : ToolOracle) (ts : List ToolType) (s : AgentState) :
    (runToolLoop o ts s).max_tool_calls = s.max_tool_calls := by
  induction ts generalizing s with
  | nil => rfl
  | cons t ts ih =>
    unfold runToolLoop
    split
    · rfl
    · rw [ih, processTool_max_tool_calls]

/-- C10: a failed gap-analysis or RAG tool invocation (whose envelope carries
`data = {}`) still has its data stored into the run-state slot — the slot
becomes non-null but falsy.  Consequently `validate_data_sources` counts both
slots as available sources (it tests `is not None`), while `router` does not
treat them as populated (it tests truthiness) and loops back to
`"execute_tools"` while budget remains. -/
theorem c10_failed_tool_slot (o : ToolOracle) (s : AgentState)
    (hbudget : s.tool_call_count + 1 < s.max_tool_calls)
    (_hgfail : o.gap_analyzer.success = false) (hgdata : o.gap_analyzer.data = emptyGapDict)
    (_hrfail : o.rag_query.success = false) (hrdata : o.rag_query.data = emptyRagDict) :
    (agent_execute_tools o s).gap_analysis_results = some emptyGapDict ∧
    (agent_execute_tools o s).rag_results = some emptyRagDict ∧
    2 ≤ sourcesAvailable (agent_execute_tools o s).rag_results
        (agent_execute_tools o s).skill_validation_results
        (agent_execute_tools o s).market_research_results
        (agent_execute_tools o s).gap_analysis_results ∧
    router (agent_execute_tools o s) = "execute_tools" := by
  have hloop :
      runToolLoop o (toolsToExecute s) { s with tool_call_count := s.tool_call_count + 1 } =
        (toolsToExecute s).foldl (fun st t => processTool o t st)
          { s with tool_call_count := s.tool_call_count + 1 } :=
    runToolLoop_runs_all o _ _ hbudget
  have hgap : (agent_execute_tools o s).gap_analysis_results = some o.gap_analyzer.data := by
    show (runToolLoop o (toolsToExecute s)
        { s with tool_call_count := s.tool_call_count + 1 }).gap_analysis_results = _
    rw [hloop]
    unfold toolsToExecute
    cases husr : usernameTruthy s.github_username <;> simp [husr, processTool]
  have hrag : (agent_execute_tools o s).rag_results = some o.rag_query.data := by
    show (runToolLoop o (toolsToExecute s)
        { s with tool_call_count := s.tool_call_count + 1 }).rag_results = _
    rw [hloop]
    unfold toolsToExecute
    cases husr : usernameTruthy s.github_username <;> simp [husr, processTool]
  have hsv : (agent_execute_tools o s).skill_validation_results =
      some o.skill_validator.data := by
    show (runToolLoop o (toolsToExecute s)
        { s with tool_call_count := s.tool_call_count + 1 }).skill_validation_results = _
    rw [hloop]
    unfold toolsToExecute
    cases husr : usernameTruthy s.github_username <;> simp [husr, processTool]
  have hcnt : (agent_execute_tools o s).tool_call_count = s.tool_call_count + 1 := by
    show (runToolLoop o (toolsToExecute s)
        { s with tool_call_count := s.tool_call_count + 1 }).tool_call_count = _
    rw [runToolLoop_tool_call_count]
  have hmax : (agent_execute_tools o s).max_tool_calls = s.max_tool_calls := by
    show (runToolLoop o (toolsToExecute s)
        { s with tool_call_count := s.tool_call_count + 1 }).max_tool_calls = _
    rw [runToolLoop_max_tool_calls]
  rw [hgdata] at hgap
  rw [hrdata] at hrag
  refine ⟨hgap, hrag, ?_, ?_⟩
  · rw [hgap, hrag, hsv]
    simp only [sourcesAvailable, Option.isSome_some, if_pos]
    split <;> omega
  · unfold router
    rw [if_neg (show ¬(agent_execute_tools o s).tool_call_count ≥
          (agent_execute_tools o s).max_tool_calls from by rw [hcnt, hmax]; omega),
      hgap, hrag, if_neg (by decide)]

/-- Witness for `c10_failed_tool_slot`: a fresh run state (budget 5) and an
oracle in which every tool failed with an empty data mapping. -/
theorem c10_failed_tool_slot_witness :
    (agent_execute_tools failOracle initAgentState).gap_analysis_results =
        some emptyGapDict ∧
    (agent_execute_tools failOracle initAgentState).rag_results = some emptyRagDict ∧
    2 ≤ sourcesAvailable (agent_execute_tools failOracle initAgentState).rag_results
        (agent_execute_tools failOracle initAgentState).skill_validation_results
        (agent_execute_tools failOracle initAgentState).market_research_results
        (agent_execute_tools failOracle initAgentState).gap_analysis_results ∧
    router (agent_execute_tools failOracle initAgentState) = "execute_tools" :=
  c10_failed_tool_slot failOracle initAgentState (by decide) rfl rfl rfl rfl


/-- C7: `validate_learning_plan_quality` scores by length tiers (below 500
characters gives 0.3 plus a MEDIUM `plan_completeness` issue, above 2000 gives
0.9, otherwise 0.7), then subtracts 0.1 when no phase-marker keyword occurs,
0.2 when no resource keyword occurs, and 0.1 when no milestone/metric keyword
occurs — each subtraction accompanied by a MEDIUM or HIGH issue — and returns
the result clamped to [0, 1]. -/
theorem c7_plan_quality_spec (learning_plan : String) (skill_gaps : List String)
    (github_analysis : Option GithubDict) :
    (validate_learning_plan_quality learning_plan skill_gaps github_analysis).1 =
      max 0 (min 1
        ((if learning_plan.length < 500 then (3 : ℚ)/10
          else if learning_plan.length > 2000 then 9/10 else 7/10) -
          (if hasAnyKeyword learning_plan.toLower phaseKeywords then 0 else 1/10) -
          (if hasAnyKeyword learning_plan.toLower resourceKeywords then 0 else 1/5) -
          (if hasAnyKeyword learning_plan.toLower metricKeywords then 0 else 1/10))) ∧
    (validate_learning_plan_quality learning_plan skill_gaps github_analysis).2.map
        (fun i => (i.risk_level, i.category)) =
      ((if learning_plan.length < 500 then [(ValidationRisk.medium, "plan_completeness")]
        else []) ++
        (if hasAnyKeyword learning_plan.toLower phaseKeywords then []
          else [(ValidationRisk.medium, "plan_structure")]) ++
        (if hasAnyKeyword learning_plan.toLower resourceKeywords then []
          else [(ValidationRisk.high, "resource_guidance")]) ++
        (if hasAnyKeyword learning_plan.toLower metricKeywords then []
          else [(ValidationRisk.medium, "success_criteria")])) := by
  by_cases h5 : learning_plan.length < 500 <;>
    by_cases h2k : learning_plan.length > 2000 <;>
    cases hp : hasAnyKeyword learning_plan.toLower phaseKeywords <;>
    cases hr : hasAnyKeyword learning_plan.toLower resourceKeywords <;>
    cases hm : hasAnyKeyword learning_plan.toLower metricKeywords <;>
    first
      | omega
      | (refine ⟨?_, ?_⟩ <;>
          simp only [validate_learning_plan_quality, hp, hr, hm, h5, h2k, if_true,
            ite_true, ite_false, Bool.not_true, Bool.not_false, if_pos, if_neg,
            Bool.false_eq_true, Bool.true_eq_false, List.map_append, List.map_cons,
            List.map_nil, List.append_nil, List.nil_append, List.cons_append,
            not_false_eq_true, not_true_eq_false] <;>
          norm_num)

/-- C5: `validate_data_sources` returns the count of non-null sources divided
by 4, minus 0.1 with an additional MEDIUM issue exactly when the RAG slot
carries a `resources` entry with fewer than 3 resources, clamped to [0, 1]; it
emits a CRITICAL issue exactly when fewer than 2 sources are non-null; with
all four inputs `None` it returns quality 0.0 and exactly one CRITICAL issue
with category `insufficient_data_sources`. -/
theorem c5_data_sources_spec (rag_results : Option RagDict)
    (skill_validation market_research : Option KDict) (gap_analysis : Option GapDict) :
    (validate_data_sources rag_results skill_validation market_research gap_analysis).1 =
      max 0 (min 1
        ((sourcesAvailable rag_results skill_validation market_research gap_analysis : ℚ) / 4 -
          (if ragFewResources rag_results then 1/10 else 0))) ∧
    (ragFewResources rag_results = true ↔
      ∃ d v, rag_results = some d ∧ d.resources = some v ∧ resourceCount v < 3) ∧
    (validate_data_sources rag_results skill_validation market_research gap_analysis).2.map
        (fun i => (i.risk_level, i.category)) =
      ((if sourcesAvailable rag_results skill_validation market_research gap_analysis < 2
        then [(ValidationRisk.critical, "insufficient_data_sources")] else []) ++
        (if ragFewResources rag_results then
          [(ValidationRisk.medium, "insufficient_resources")] else [])) ∧
    (validate_data_sources Option.none Option.none Option.none Option.none).1 = 0 ∧
    (validate_data_sources Option.none Option.none Option.none Option.none).2.map
        (fun i => (i.risk_level, i.category)) =
      [(ValidationRisk.critical, "insufficient_data_sources")] := by
  refine ⟨?_, ?_, ?_,
    by norm_num [validate_data_sources, sourcesAvailable, ragFewResources],
    by norm_num [validate_data_sources, sourcesAvailable, ragFewResources]⟩
  · by_cases hf : ragFewResources rag_results = true <;>
      by_cases h2 : sourcesAvailable rag_results skill_validation market_research
          gap_analysis < 2 <;>
      simp only [validate_data_sources, hf, h2, ite_true, ite_false, if_pos, if_neg,
        Bool.false_eq_true, not_false_eq_true, not_true_eq_false] <;>
      norm_num
  · cases rag_results with
    | none => simp [ragFewResources]
    | some d =>
      cases hres : d.resources with
      | none => simp [ragFewResources, hres]
      | some v =>
        have htr : d.truthy = true := by
          simp [RagDict.truthy, hres]
        simp [ragFewResources, hres, htr]
  · by_cases hf : ragFewResources rag_results = true <;>
      by_cases h2 : sourcesAvailable rag_results skill_validation market_research
          gap_analysis < 2 <;>
      simp only [validate_data_sources, hf, h2, ite_true, ite_false, if_pos, if_neg,
        Bool.false_eq_true, not_false_eq_true, not_true_eq_false, List.map_append,
        List.map_cons, List.map_nil, List.append_nil, List.nil_append]

/-- C6: `validate_github_integration` returns (1.0, no issues) when no (truthy)
GitHub username was supplied; (0.3, one HIGH issue) when a username was
supplied but no (truthy) analysis result exists; (0.5, one MEDIUM issue) when
the analysis exists but lists no programming languages; and otherwise
`min 1 (overlap/max 1 |languages| + 0.5)` with a LOW issue exactly when the
overlap ratio is below 0.5. -/
theorem c6_github_integration_spec (github_username : Option String)
    (github_analysis : Option GithubDict) (current_skills : List String) :
    (validate_github_integration github_username github_analysis current_skills).1 =
      (if usernameTruthy github_username = false then 1
       else if ghSlotTruthy github_analysis = false then 3/10
       else if githubLangs github_analysis = ∅ then 1/2
       else min 1 (((githubLangs github_analysis ∩ current_skills.toFinset).card : ℚ) /
          ((max 1 (githubLangs github_analysis).card : ℕ) : ℚ) + 1/2)) ∧
    (validate_github_integration github_username github_analysis current_skills).2.map
        (fun i => i.risk_level) =
      (if usernameTruthy github_username = false then []
       else if ghSlotTruthy github_analysis = false then [ValidationRisk.high]
       else if githubLangs github_analysis = ∅ then [ValidationRisk.medium]
       else if ((githubLangs github_analysis ∩ current_skills.toFinset).card : ℚ) /
          ((max 1 (githubLangs github_analysis).card : ℕ) : ℚ) < 1/2 then
         [ValidationRisk.low]
       else []) := by
  cases hu : usernameTruthy github_username <;>
    cases hg : ghSlotTruthy github_analysis <;>
    by_cases hl : githubLangs github_analysis = ∅ <;>
    simp [validate_github_integration, hu, hg, hl]
  all_goals (split <;> rfl)

/-- C4: `validate_skill_coverage` returns
`|covered ∩ required| / |required|` (1.0 when required is empty), so coverage
equals 1.0 exactly when the covered set is a superset of the required set; it
emits a single HIGH issue exactly when the uncovered skills exceed 30% of the
required skills, and otherwise no issues. -/
theorem c4_skill_coverage_spec (required_skills : List String) (gap_analysis : Option GapDict)
    (rag_results : Option RagDict) (github_analysis : Option GithubDict) :
    (validate_skill_coverage required_skills gap_analysis rag_results github_analysis).1 =
      (if required_skills.toFinset = ∅ then 1
       else ((coveredSkills gap_analysis rag_results github_analysis ∩
            required_skills.toFinset).card : ℚ) / (required_skills.toFinset.card : ℚ)) ∧
    ((validate_skill_coverage required_skills gap_analysis rag_results github_analysis).1 =
        1 ↔
      required_skills.toFinset ⊆ coveredSkills gap_analysis rag_results github_analysis) ∧
    (validate_skill_coverage required_skills gap_analysis rag_results
          github_analysis).2.map (fun i => (i.risk_level, i.category)) =
      (if ((required_skills.toFinset \
            coveredSkills gap_analysis rag_results github_analysis).card : ℚ) >
          (required_skills.toFinset.card : ℚ) * (3/10) then
        [(ValidationRisk.high, "skill_coverage")]
       else []) := by
  have hsd : required_skills.toFinset \
        (coveredSkills gap_analysis rag_results github_analysis ∩
          required_skills.toFinset) =
      required_skills.toFinset \ coveredSkills gap_analysis rag_results github_analysis := by
    ext a
    simp only [Finset.mem_sdiff, Finset.mem_inter]
    tauto
  refine ⟨?_, ?_, ?_⟩
  · by_cases he : required_skills.toFinset = ∅
    · have hnil : required_skills = [] := by simpa using he
      subst hnil
      simp [validate_skill_coverage]
    · simp [validate_skill_coverage, he]
  · by_cases he : required_skills.toFinset = ∅
    · have hnil : required_skills = [] := by simpa using he
      subst hnil
      simp [validate_skill_coverage]
    · have hpos : 0 < required_skills.toFinset.card :=
        Finset.card_pos.mpr (Finset.nonempty_iff_ne_empty.mpr he)
      have hne : ((required_skills.toFinset.card : ℚ)) ≠ 0 := by
        exact_mod_cast Nat.pos_iff_ne_zero.mp hpos
      simp only [validate_skill_coverage, he, ne_eq, not_false_eq_true, if_pos, if_true,
        ite_true, ite_false]
      rw [div_eq_one_iff_eq hne, Nat.cast_inj]
      constructor
      · intro hc
        have heq : coveredSkills gap_analysis rag_results github_analysis ∩
            required_skills.toFinset = required_skills.toFinset :=
          Finset.eq_of_subset_of_card_le Finset.inter_subset_right (le_of_eq hc.symm)
        exact Finset.inter_eq_right.mp heq
      · intro hsub
        rw [Finset.inter_eq_right.mpr hsub]
  · have hcond : ((required_skills.toFinset \
          (coveredSkills gap_analysis rag_results github_analysis ∩
            required_skills.toFinset) ≠ ∅) ∧
        (((required_skills.toFinset \
            (coveredSkills gap_analysis rag_results github_analysis ∩
              required_skills.toFinset)).card : ℚ) >
          (required_skills.toFinset.card : ℚ) * (3/10))) ↔
        (((required_skills.toFinset \
            coveredSkills gap_analysis rag_results github_analysis).card : ℚ) >
          (required_skills.toFinset.card : ℚ) * (3/10)) := by
      rw [hsd]
      constructor
      · exact And.right
      · intro h
        refine ⟨?_, h⟩
        have h0 : (0 : ℚ) ≤ (required_skills.toFinset.card : ℚ) * (3/10) := by positivity
        have hgt : (0 : ℚ) < ((required_skills.toFinset \
            coveredSkills gap_analysis rag_results github_analysis).card : ℚ) :=
          lt_of_le_of_lt h0 h
        have hcard : 0 < (required_skills.toFinset \
            coveredSkills gap_analysis rag_results github_analysis).card := by
          exact_mod_cast hgt
        exact Finset.nonempty_iff_ne_empty.mp (Finset.card_pos.mp hcard)
    by_cases hc : ((required_skills.toFinset \
        coveredSkills gap_analysis rag_results github_analysis).card : ℚ) >
        (required_skills.toFinset.card : ℚ) * (3/10)
    case pos =>
      simp only [validate_skill_coverage, if_pos (hcond.mpr hc), if_pos hc,
        List.map_cons, List.map_nil]
    case neg =>
      have hneg : ¬((required_skills.toFinset \
          (coveredSkills gap_analysis rag_results github_analysis ∩
            required_skills.toFinset) ≠ ∅) ∧
          (((required_skills.toFinset \
              (coveredSkills gap_analysis rag_results github_analysis ∩
                required_skills.toFinset)).card : ℚ) >
            (required_skills.toFinset.card : ℚ) * (3/10))) := by
        rw [hcond]
        exact hc
      simp only [validate_skill_coverage, if_neg hneg, if_neg hc, List.map_nil]

/-- C3: `validate_analysis` sets `requires_revision` to true exactly when the
count of CRITICAL issues is greater than 0, or the count of HIGH issues is
greater than 1 and the overall quality is below 0.6; and sets `is_valid` to
true exactly when `requires_revision` is false and the overall quality exceeds
0.5. -/
theorem c3_revision_decision (required_skills current_skills skill_gaps : List String)
    (learning_plan : String) (github_username : Option String) (rag_results : Option RagDict)
    (skill_validation : Option KDict) (market_research : Option KDict)
    (gap_analysis : Option GapDict) (github_analysis : Option GithubDict) :
    ((validate_analysis required_skills current_skills skill_gaps learning_plan
          github_username rag_results skill_validation market_research gap_analysis
          github_analysis).requires_revision = true ↔
      (0 < ((validate_analysis required_skills current_skills skill_gaps learning_plan
            github_username rag_results skill_validation market_research gap_analysis
            github_analysis).issues.filter
              (fun i => i.risk_level == ValidationRisk.critical)).length ∨
        (1 < ((validate_analysis required_skills current_skills skill_gaps learning_plan
            github_username rag_results skill_validation market_research gap_analysis
            github_analysis).issues.filter
              (fun i => i.risk_level == ValidationRisk.high)).length ∧
          (validate_analysis required_skills current_skills skill_gaps learning_plan
            github_username rag_results skill_validation market_research gap_analysis
            github_analysis).overall_quality_score < 6/10))) ∧
    ((validate_analysis required_skills current_skills skill_gaps learning_plan
          github_username rag_results skill_validation market_research gap_analysis
          github_analysis).is_valid = true ↔
      ((validate_analysis required_skills current_skills skill_gaps learning_plan
          github_username rag_results skill_validation market_research gap_analysis
          github_analysis).requires_revision = false ∧
        (validate_analysis required_skills current_skills skill_gaps learning_plan
          github_username rag_results skill_validation market_research gap_analysis
          github_analysis).overall_quality_score > 1/2)) := by
  refine ⟨?_, ?_⟩ <;>
    simp only [validate_analysis, vaRequiresRevision, Bool.or_eq_true, Bool.and_eq_true,
      decide_eq_true_iff, Bool.not_eq_true', Bool.not_eq_true]
